import Mathlib

/-!
Verification of the Clarity task-orchestration engine.

This file gives a shallow embedding of the orchestration core of the
repository (task planner, execution engine, state monitor, orchestrator and
the market-data strategy layer) and proves or refutes the specified claims
about it.  Python dictionaries are embedded as association lists, mutable
objects as explicit state passing, timestamps as an abstract tick counter
and exceptions as `Except`.
-/

namespace Clarity

/-! ## String helpers

Python substring containment (`kw in s`), `str.lower`, `str.upper`,
`str.strip`, `str.isdigit`, `str.isalpha`, `str.isalnum` are embedded
character-list-wise (the source only ever applies them to ASCII data).
-/

/-- Boolean test that the first list is an initial segment of the second. -/
def startsWithL : List Char → List Char → Bool
  | [], _ => true
  | _ :: _, [] => false
  | a :: as, b :: bs => a == b && startsWithL as bs

/-- Boolean substring containment on character lists (Python `needle in hay`). -/
def containsL (needle : List Char) : List Char → Bool
  | [] => needle.isEmpty
  | c :: rest => startsWithL needle (c :: rest) || containsL needle rest

/-- Python `needle in hay` on strings. -/
def containsSub (hay needle : String) : Bool :=
  containsL needle.data hay.data

/-- Python `str.lower` (character-wise). -/
def lowerStr (s : String) : String :=
  String.mk (s.data.map Char.toLower)

/-- Python `str.upper` (character-wise). -/
def upperStr (s : String) : String :=
  String.mk (s.data.map Char.toUpper)

/-- Python `str.strip`: drop whitespace from both ends. -/
def stripChars (l : List Char) : List Char :=
  ((l.dropWhile Char.isWhitespace).reverse.dropWhile Char.isWhitespace).reverse

/-- Python `str.isdigit` (restricted to ASCII digits, as used by the source). -/
def listIsDigit (l : List Char) : Bool :=
  !l.isEmpty && l.all Char.isDigit

/-- Python `str.isalpha` (restricted to ASCII letters, as used by the source). -/
def listIsAlpha (l : List Char) : Bool :=
  !l.isEmpty && l.all Char.isAlpha

/-- Python `str.isalnum` (restricted to ASCII, as used by the source). -/
def listIsAlnum (l : List Char) : Bool :=
  !l.isEmpty && l.all Char.isAlphanum

/-! ## Data model (`working_agent.py`, `base_agent.py`, `state_checker.py`) -/

/-- `AgentResult` from `clarity/core/base_agent.py` (the fields the
orchestration core reads; `tool_calls` and `metadata` are opaque payload the
core never inspects). -/
structure AgentResult where
  success : Bool
  output : String
  report : String := ""
  errors : List String := []
deriving DecidableEq, Repr

/-- `ExecutionStep` from `tradingagents/core/working_agent.py`.  Timestamps
are abstract clock ticks. -/
structure ExecutionStep where
  step_id : Nat
  agent_name : String
  task : String
  status : String := "pending"
  retry_count : Nat := 0
  result : Option AgentResult := none
  started_at : Option Nat := none
  completed_at : Option Nat := none
  error_message : String := ""
deriving DecidableEq, Repr

/-- `StateCheckResult` from `clarity/core/state_checker.py`. -/
structure StateCheckResult where
  is_ok : Bool
  action : String
  message : String
  retry_recommended : Bool := false
  max_retries_exceeded : Bool := false
  requires_replanning : Bool := false
deriving DecidableEq, Repr

/-- The run-scoped counters held by `StateCheckerAgent`
(`total_failures`, `consecutive_failures`). -/
structure CheckerState where
  total_failures : Nat
  consecutive_failures : Nat
deriving DecidableEq, Repr

/-! ## State Monitor (`clarity/core/state_checker.py`) -/

/-- `self.max_consecutive_failures = 3` in `StateCheckerAgent.__init__`. -/
def max_consecutive_failures : Nat := 3

/-- Transient-error keywords of `StateCheckerAgent._analyze_failure`. -/
def transient_keywords : List String :=
  ["timeout", "connection", "rate limit", "temporary", "503", "429", "network"]

/-- Data-unavailable keywords of `StateCheckerAgent._analyze_failure`. -/
def data_keywords : List String :=
  ["no data", "not found", "empty", "unavailable"]

/-- Authentication keywords of `StateCheckerAgent._analyze_failure`. -/
def auth_keywords : List String :=
  ["api key", "unauthorized", "forbidden", "401", "403"]

/-- `critical_agents` in `StateCheckerAgent._max_retries_exceeded`. -/
def critical_agents : List String :=
  ["alpha_hound", "holdings_hunter", "technical_analyst"]

/-- `StateCheckerAgent._success_result`. -/
def success_result (step : ExecutionStep) : StateCheckResult :=
  { is_ok := true
    action := "continue"
    message := "Step " ++ toString step.step_id ++ " completed successfully" }

/-- `StateCheckerAgent._max_retries_exceeded`: skip or replan by step
importance. -/
def max_retries_exceeded_result (step : ExecutionStep) : StateCheckResult :=
  if critical_agents.contains step.agent_name then
    { is_ok := false
      action := "replan"
      message := "Critical step " ++ step.agent_name ++ " failed after max retries"
      max_retries_exceeded := true
      requires_replanning := true }
  else
    { is_ok := false
      action := "skip"
      message := "Step " ++ step.agent_name ++ " skipped after max retries"
      max_retries_exceeded := true }

/-- `StateCheckerAgent._too_many_consecutive_failures`. -/
def too_many_consecutive_result (n : Nat) : StateCheckResult :=
  { is_ok := false
    action := "replan"
    message := "Too many consecutive failures (" ++ toString n ++ ")"
    requires_replanning := true }

/-- `StateCheckerAgent._analyze_failure`: case-insensitive keyword
classification of `step.error_message`, first category wins. -/
def analyze_failure (step : ExecutionStep) : StateCheckResult :=
  let error_msg := lowerStr step.error_message
  if transient_keywords.any (fun kw => containsSub error_msg kw) then
    { is_ok := false
      action := "retry"
      message := "Transient error detected: " ++ step.error_message
      retry_recommended := true }
  else if data_keywords.any (fun kw => containsSub error_msg kw) then
    { is_ok := false
      action := "skip"
      message := "Data unavailable: " ++ step.error_message }
  else if auth_keywords.any (fun kw => containsSub error_msg kw) then
    { is_ok := false
      action := "replan"
      message := "Authentication error: " ++ step.error_message
      requires_replanning := true }
  else
    { is_ok := false
      action := "retry"
      message := "Unknown error, attempting retry: " ++ step.error_message
      retry_recommended := true }

/-- `StateCheckerAgent.check_step`, with the instance counters passed and
returned explicitly.  `maxRetries` is `config.max_retry_count`. -/
def check_step (maxRetries : Nat) (st : CheckerState) (step : ExecutionStep) :
    CheckerState × StateCheckResult :=
  if step.status == "complete" then
    ({ st with consecutive_failures := 0 }, success_result step)
  else
    let st : CheckerState :=
      { total_failures := st.total_failures + 1
        consecutive_failures := st.consecutive_failures + 1 }
    if step.retry_count ≥ maxRetries then
      (st, max_retries_exceeded_result step)
    else if st.consecutive_failures ≥ max_consecutive_failures then
      (st, too_many_consecutive_result st.consecutive_failures)
    else
      (st, analyze_failure step)

/-- Count of steps with `status == "complete"`
(`successful_steps` in `validate_final_state`). -/
def successful_count (steps : List ExecutionStep) : Nat :=
  (steps.filter (fun s => s.status == "complete")).length

/-- `StateCheckerAgent.validate_final_state`: the 50%-completion acceptance
gate.  `success_rate` is `successful/total` when `total > 0` and `0`
otherwise, exactly as in the source. -/
def validate_final_state (steps : List ExecutionStep) : StateCheckResult :=
  let successful := successful_count steps
  let total := steps.length
  let success_rate : ℚ := if total > 0 then (successful : ℚ) / (total : ℚ) else 0
  if success_rate ≥ (1 / 2 : ℚ) then
    { is_ok := true
      action := "continue"
      message := "Execution complete" }
  else
    { is_ok := false
      action := "replan"
      message := "Low success rate, replanning recommended"
      requires_replanning := true }

/-- `StateCheckerAgent.reset_counters`. -/
def reset_counters (st : CheckerState) : CheckerState :=
  { st with total_failures := 0, consecutive_failures := 0 }

/-! ## Task Planner (`clarity/core/master_agent.py`) -/

/-- Modelled from the spec: the `TaskType` enum lives in `clarity/core/config.py`,
which is not under `src/`; §3 of the spec fixes its three members and the
orchestrator docstring fixes their value strings (`stock_analysis`,
`holdings_tracking`, `stock_screening`). -/
inductive TaskType
  | stock_analysis
  | holdings_tracking
  | stock_screening
deriving DecidableEq, Repr

/-- The string value of a `TaskType` member. -/
def TaskType.value : TaskType → String
  | .stock_analysis => "stock_analysis"
  | .holdings_tracking => "holdings_tracking"
  | .stock_screening => "stock_screening"

/-- Modelled from the spec: `TaskType(task_type)` in `orchestrator.run` parses
a value string, raising `ValueError` for any other string; this mirrors the
standard enum constructor on the three members above. -/
def TaskType.ofString? (s : String) : Option TaskType :=
  if s == "stock_analysis" then some .stock_analysis
  else if s == "holdings_tracking" then some .holdings_tracking
  else if s == "stock_screening" then some .stock_screening
  else none

/-- `TaskContext` (`clarity/core/config.py` is absent from `src/`; the fields
are those read by the sources and listed in §3 of the spec).  `constraints`
is an opaque key-value map the core never inspects. -/
structure TaskContext where
  task_type : TaskType
  target : String
  trade_date : String
  look_back_days : Nat := 7
  constraints : List (String × String) := []

/-- One informational phase descriptor of a `TaskPlan`. -/
structure PhaseInfo where
  phase : Nat
  name : String
  status : String
  tasks : List String
deriving DecidableEq, Repr

/-- `TaskPlan` from `clarity/core/master_agent.py`; the Python dict
`subagent_assignments` is embedded as an association list in insertion
order. -/
structure TaskPlan where
  task_id : String
  task_type : TaskType
  target : String
  phases : List PhaseInfo
  subagent_assignments : List (String × List String)
  priority_order : List String

/-- Python `d.get(name, [])` on the embedded assignment dict. -/
def lookupTasks (assignments : List (String × List String)) (name : String) :
    List String :=
  match assignments.find? (fun p => p.1 == name) with
  | some p => p.2
  | none => []

/-- `MasterAgent.create_task_plan`: the static task-type → assignment
tables, the informational phase list and the derived task id (planning-file
side effects dropped). -/
def create_task_plan (context : TaskContext) : TaskPlan :=
  let task_type := context.task_type
  let assignments : List (String × List String) :=
    match task_type with
    | .stock_analysis =>
        [("technical_analyst", ["Analyze technical indicators and price trends"]),
         ("fundamentals_analyst", ["Analyze financial statements and fundamental metrics"]),
         ("news_analyst", ["Gather and analyze relevant news"]),
         ("sentiment_analyst", ["Analyze social media sentiment"])]
    | .holdings_tracking =>
        [("holdings_hunter", ["Track and analyze investor holdings"]),
         ("news_analyst", ["Find related news about the investor"])]
    | .stock_screening =>
        [("alpha_hound", ["Screen stocks based on criteria"]),
         ("technical_analyst", ["Analyze technicals of top picks"]),
         ("fundamentals_analyst", ["Analyze fundamentals of top picks"])]
  let priority_order : List String :=
    match task_type with
    | .stock_analysis =>
        ["technical_analyst", "fundamentals_analyst", "news_analyst",
         "sentiment_analyst"]
    | .holdings_tracking => ["holdings_hunter", "news_analyst"]
    | .stock_screening =>
        ["alpha_hound", "technical_analyst", "fundamentals_analyst"]
  let phases : List PhaseInfo :=
    [⟨1, "Requirements & Discovery", "in_progress",
      ["Understand task requirements", "Initialize planning files"]⟩,
     ⟨2, "Data Collection & Analysis", "pending", assignments.map (·.1)⟩,
     ⟨3, "Synthesis & Report", "pending",
      ["Combine SubAgent reports", "Generate insights"]⟩,
     ⟨4, "Decision & Recommendation", "pending",
      ["Generate recommendation", "Risk assessment"]⟩,
     ⟨5, "Delivery", "pending", ["Final review", "Deliver to user"]⟩]
  { task_id := task_type.value ++ "_" ++ context.target ++ "_" ++ context.trade_date
    task_type := task_type
    target := context.target
    phases := phases
    subagent_assignments := assignments
    priority_order := priority_order }

/-! ## Execution Engine (`tradingagents/core/working_agent.py`)

The collaborators (`master_agent.subagents` and each `agent.execute`) are
the engine's environment.  Each call of `_execute_step` happens at a
distinct `(step_id, retry_count)` pair, so one attempt's outcome is keyed by
that pair: `Except.error e` is a raised exception with message `e`,
`Except.ok r` a returned `AgentResult`. -/

/-- The engine's environment: the registered subagent names and each
attempt's collaborator outcome. -/
structure Env where
  registered : List String
  behavior : Nat → Nat → Except String AgentResult

/-- `WorkingAgent._execute_step`, with the wall clock as an explicit tick
counter (`datetime.now()` reads and advances it).  Returns the updated step,
the returned boolean and the new clock.  Logging side effects are
dropped. -/
def execute_step (env : Env) (clock : Nat) (step : ExecutionStep) :
    ExecutionStep × Bool × Nat :=
  let step := { step with status := "in_progress", started_at := some clock }
  let clock := clock + 1
  if env.registered.contains step.agent_name then
    match env.behavior step.step_id step.retry_count with
    | Except.error e =>
        ({ step with
            status := "failed", error_message := e,
            completed_at := some clock }, false, clock + 1)
    | Except.ok r =>
        let step := { step with result := some r }
        if r.success then
          ({ step with status := "complete", completed_at := some clock },
           true, clock + 1)
        else
          ({ step with
              status := "failed",
              error_message := String.intercalate ", " r.errors }, false, clock)
  else
    -- `raise ValueError(f"SubAgent {step.agent_name} not found")`,
    -- caught by the surrounding `except` block of `_execute_step`.
    ({ step with
        status := "failed",
        error_message := "SubAgent " ++ step.agent_name ++ " not found",
        completed_at := some clock }, false, clock + 1)

/-- The `while step.retry_count < max_retries` loop of
`WorkingAgent._retry_step`, with fuel `max_retries - retry_count`. -/
def retry_loop (env : Env) (clock : Nat) (step : ExecutionStep) :
    Nat → ExecutionStep × Bool × Nat
  | 0 => (step, false, clock)
  | fuel + 1 =>
    let step := { step with retry_count := step.retry_count + 1 }
    let r := execute_step env clock step
    if r.2.1 then (r.1, true, r.2.2) else retry_loop env r.2.2 r.1 fuel

/-- `WorkingAgent._retry_step`.  Note it never consults the state checker:
the retries run back to back with only a sleep between them. -/
def retry_step (env : Env) (maxRetries : Nat) (clock : Nat)
    (step : ExecutionStep) : ExecutionStep × Bool × Nat :=
  if step.retry_count ≥ maxRetries then (step, false, clock)
  else retry_loop env clock step (maxRetries - step.retry_count)

/-- `WorkingAgent.prepare_execution`: flatten `subagent_assignments` in
`priority_order` order into sequential steps with ids from 0. -/
def prepare_execution (plan : TaskPlan) : List ExecutionStep :=
  let pairs : List (String × String) :=
    (plan.priority_order.map (fun name =>
      (lookupTasks plan.subagent_assignments name).map (fun t => (name, t)))).flatten
  pairs.enum.map (fun p =>
    { step_id := p.1, agent_name := p.2.1, task := p.2.2 })

/-- The run-wide mutable state threaded through the execution loop:
the processed steps, the state checker's counters, the clock, `has_error`,
and a log of every `check_step` call (checked-step snapshot and verdict). -/
structure RunState where
  steps_done : List ExecutionStep
  checker : CheckerState
  clock : Nat
  has_error : Bool
  checks : List (ExecutionStep × StateCheckResult)

/-- The tail of each loop iteration of `WorkingAgent.execute_plan`:
`if not success and step.status != "skipped": state.has_error = True`,
then the step takes its place in the run's step list. -/
def finish_step (st : RunState) (step : ExecutionStep) (success : Bool) :
    RunState :=
  let st :=
    if !success && !(step.status == "skipped") then
      { st with has_error := true }
    else st
  { st with steps_done := st.steps_done ++ [step] }

/-- The step loop of `WorkingAgent.execute_plan`: execute, consult the state
checker once, apply its verdict (retry via `_retry_step`, skip, or replan
which breaks leaving the rest pending). -/
def run_steps (env : Env) (maxRetries : Nat) :
    List ExecutionStep → RunState → RunState
  | [], st => st
  | step :: rest, st =>
    let e := execute_step env st.clock step
    let step1 := e.1
    let success := e.2.1
    let st1 := { st with clock := e.2.2 }
    let c := check_step maxRetries st1.checker step1
    let st2 := { st1 with checker := c.1, checks := st1.checks ++ [(step1, c.2)] }
    if c.2.is_ok then
      run_steps env maxRetries rest (finish_step st2 step1 success)
    else if c.2.action == "retry" then
      let r := retry_step env maxRetries st2.clock step1
      run_steps env maxRetries rest
        (finish_step { st2 with clock := r.2.2 } r.1 r.2.1)
    else if c.2.action == "skip" then
      run_steps env maxRetries rest
        (finish_step st2 { step1 with status := "skipped" } success)
    else if c.2.action == "replan" then
      { st2 with
        has_error := true,
        steps_done := st2.steps_done ++ step1 :: rest }
    else
      run_steps env maxRetries rest (finish_step st2 step1 success)

/-- `WorkingAgent.execute_plan`: prepare the steps and run the loop.
`checker0` is the state checker's counter state when the run starts. -/
def execute_plan (env : Env) (maxRetries : Nat) (plan : TaskPlan)
    (checker0 : CheckerState) : RunState :=
  run_steps env maxRetries (prepare_execution plan)
    { steps_done := [], checker := checker0, clock := 0,
      has_error := false, checks := [] }

/-! ## Orchestrator (`clarity/core/orchestrator.py`) -/

/-- The result dictionary of `FinancialAgentOrchestrator.run` (the fields
the claims inspect; the synthesized report text and file paths are outward
payload). -/
structure RunResult where
  success : Bool
  task_type : String
  target : String
  trade_date : String
  error : Option String
deriving DecidableEq, Repr

/-- `FinancialAgentOrchestrator.run`.  `TaskType(task_type)` is evaluated
before the `try` block, so an invalid string propagates as an exception
(`Except.error`); `innerFault` abstracts any exception raised inside the
`try` block (planning-file I/O, plan creation, …), which the `except`
handler converts into a `success=False` result. -/
def orchestrator_run (env : Env) (maxRetries : Nat)
    (innerFault : Option String) (task_type_str target trade_date : String) :
    Except String RunResult :=
  match TaskType.ofString? task_type_str with
  | none =>
      Except.error ("'" ++ task_type_str ++ "' is not a valid TaskType")
  | some tt =>
      match innerFault with
      | some e =>
          Except.ok { success := false, task_type := tt.value, target := target,
                      trade_date := trade_date, error := some e }
      | none =>
          let context : TaskContext :=
            { task_type := tt, target := target, trade_date := trade_date }
          let plan := create_task_plan context
          -- `self.state_checker.reset_counters()`
          let checker0 := reset_counters ⟨0, 0⟩
          let st := execute_plan env maxRetries plan checker0
          let final_check := validate_final_state st.steps_done
          Except.ok { success := final_check.is_ok, task_type := tt.value,
                      target := target, trade_date := trade_date, error := none }

/-! ## Market Data Strategy Layer
(`tradingagents/core/tools/data_provider/base.py` and the three fetcher
modules) -/

/-- `MarketType` enum from `data_provider/base.py`. -/
inductive MarketType
  | a_share
  | hk_stock
  | us_stock
  | unknown
deriving DecidableEq, Repr

/-- `detect_market_type` from `data_provider/base.py`: strip and upper-case
the code, check the explicit suffixes as substrings, then the pure-digit
rules on the code with dots removed, then the letter-code rule
(`code.isalpha() or (code.replace('-','').replace('.','').isalnum() and not
code.isdigit())`), else unknown.  Single-character `str.replace(c, '')` is
embedded as a filter. -/
def detect_market_type (stock_code : String) : MarketType :=
  let cs := (stripChars stock_code.data).map Char.toUpper
  if containsL ".SS".data cs || containsL ".SZ".data cs then .a_share
  else if containsL ".HK".data cs then .hk_stock
  else
    let pure_code := cs.filter (fun c => c ≠ '.')
    if listIsDigit pure_code && pure_code.length == 6 then .a_share
    else if listIsDigit pure_code && pure_code.length == 5 then .hk_stock
    else if listIsAlpha cs
        || (listIsAlnum ((cs.filter (fun c => c ≠ '-')).filter (fun c => c ≠ '.'))
            && !listIsDigit cs) then .us_stock
    else .unknown

/-- Modelled from the claim wording, for comparison with
`detect_market_type`: suffix `.SS`/`.SZ` → AShare; `.HK` → HKStock;
pure-digit length 6 → AShare; pure-digit length 5 → HKStock; alphabetic →
USStock; anything else → Unknown (rules applied in this order to the
normalized code). -/
def detect_market_claim_rules (stock_code : String) : MarketType :=
  let cs := (stripChars stock_code.data).map Char.toUpper
  if containsL ".SS".data cs || containsL ".SZ".data cs then .a_share
  else if containsL ".HK".data cs then .hk_stock
  else if listIsDigit cs && cs.length == 6 then .a_share
  else if listIsDigit cs && cs.length == 5 then .hk_stock
  else if listIsAlpha cs then .us_stock
  else .unknown

/-- The identity of a data-source adapter: its `name`, `priority` and
`supported_markets` class attributes. -/
structure FetcherSpec where
  name : String
  priority : Nat
  supported_markets : List MarketType
deriving DecidableEq, Repr

/-- `AkshareFetcher` class attributes (`akshare_fetcher.py`). -/
def AkshareFetcher : FetcherSpec :=
  { name := "AkshareFetcher", priority := 0, supported_markets := [.a_share] }

/-- `EfinanceFetcher` class attributes (`efinance_fetcher.py`). -/
def EfinanceFetcher : FetcherSpec :=
  { name := "EfinanceFetcher", priority := 1, supported_markets := [.a_share] }

/-- `YfinanceFetcher` class attributes (`yfinance_fetcher.py`). -/
def YfinanceFetcher : FetcherSpec :=
  { name := "YfinanceFetcher", priority := 2,
    supported_markets := [.us_stock, .hk_stock, .a_share] }

/-- Stable insertion of a fetcher into a priority-sorted list (an equal-key
element keeps its original position, as with Python's stable `list.sort`). -/
def insert_by_priority (f : FetcherSpec) :
    List FetcherSpec → List FetcherSpec
  | [] => [f]
  | g :: gs =>
      if f.priority < g.priority then f :: g :: gs
      else g :: insert_by_priority f gs

/-- Stable sort by ascending `priority`
(`self._fetchers.sort(key=lambda f: f.priority)`). -/
def sort_by_priority : List FetcherSpec → List FetcherSpec
  | [] => []
  | f :: fs => insert_by_priority f (sort_by_priority fs)

/-- `DataFetcherManager._init_default_fetchers`: Akshare, Efinance, Yfinance,
sorted by priority. -/
def default_fetchers : List FetcherSpec :=
  sort_by_priority [AkshareFetcher, EfinanceFetcher, YfinanceFetcher]

/-- `BaseFetcher.supports_market`. -/
def supports_market (f : FetcherSpec) (m : MarketType) : Bool :=
  f.supported_markets.contains m

/-- The market filter of `DataFetcherManager.get_daily_data`: fetchers
supporting the detected market, falling back to all fetchers when none
match. -/
def suitable_fetchers (fetchers : List FetcherSpec) (stock_code : String) :
    List FetcherSpec :=
  let market := detect_market_type stock_code
  let suitable := fetchers.filter (fun f => supports_market f market)
  if suitable.isEmpty then fetchers else suitable

/-- The failover loop of `DataFetcherManager.get_daily_data`.  The fetch
environment maps a fetcher name to that fetcher's `get_daily_data` outcome
(a raised error or a normalized table, whose rows stay abstract).  A raised
error is recorded and the next candidate tried; an empty table is passed
over without recording an error. -/
def failover_loop {Row : Type} (fenv : String → Except String (List Row)) :
    List FetcherSpec → List String → (List String) ⊕ (List Row × String)
  | [], errors => Sum.inl errors
  | f :: rest, errors =>
    match fenv f.name with
    | Except.ok df =>
        if !df.isEmpty then Sum.inr (df, f.name)
        else failover_loop fenv rest errors
    | Except.error e =>
        failover_loop fenv rest (errors ++ ["[" ++ f.name ++ "] 失败: " ++ e])

/-- `DataFetcherManager.get_daily_data`: detect the market, filter the
fetchers, try each in order and return the first non-empty table with the
fetcher's name, or raise one aggregated error. -/
def manager_get_daily_data {Row : Type} (fetchers : List FetcherSpec)
    (fenv : String → Except String (List Row)) (stock_code : String) :
    Except String (List Row × String) :=
  match failover_loop fenv (suitable_fetchers fetchers stock_code) [] with
  | Sum.inr ok => Except.ok ok
  | Sum.inl errors =>
      Except.error ("所有数据源获取 " ++ stock_code ++ " 失败:\n"
        ++ String.intercalate "\n" errors)

/-- The normalized character list `stock_code.strip().upper()` that
`detect_market_type` works on. -/
def normalize_code (s : String) : List Char :=
  (stripChars s.data).map Char.toUpper

/-! ## Concrete scenario inputs used by the theorems -/

/-- Environment in which every collaborator is registered, the step of
`technical_analyst` (step 0 of the stock-analysis plan) always raises
`"connection timeout"`, and every other step succeeds. -/
def c2_env : Env :=
  { registered := ["technical_analyst", "fundamentals_analyst", "news_analyst",
      "sentiment_analyst"],
    behavior := fun sid _ =>
      if sid == 0 then Except.error "connection timeout"
      else Except.ok { success := true, output := "", report := "ok" } }

/-- A stock-analysis task context. -/
def c2_ctx : TaskContext :=
  { task_type := .stock_analysis, target := "600519", trade_date := "2025-01-18" }

/-- The run of the stock-analysis plan in `c2_env`, with counters reset. -/
def c2_run : RunState := execute_plan c2_env 3 (create_task_plan c2_ctx) ⟨0, 0⟩

/-- A failed `technical_analyst` step with error `"connection timeout"` and
the given retry count. -/
def c2_failed (k : Nat) : ExecutionStep :=
  { step_id := 0, agent_name := "technical_analyst",
    task := "Analyze technical indicators and price trends",
    status := "failed", retry_count := k,
    error_message := "connection timeout" }

/-- Minimal environment for the orchestrator theorems. -/
def c3_env : Env :=
  { registered := [], behavior := fun _ _ => Except.error "unused" }

/-- Environment whose only collaborator returns a structured failure
(`success=False`, `errors=["boom", "bang"]`). -/
def c4_env : Env :=
  { registered := ["technical_analyst"],
    behavior := fun _ _ =>
      Except.ok { success := false, output := "", errors := ["boom", "bang"] } }

/-- A fresh pending step for `technical_analyst`. -/
def c4_step : ExecutionStep :=
  { step_id := 0, agent_name := "technical_analyst", task := "t" }

/-- Fetch environment where Akshare and Efinance raise and Yfinance yields a
non-empty table. -/
def c6_env : String → Except String (List Nat) := fun n =>
  if n == "AkshareFetcher" then Except.error "ak down"
  else if n == "EfinanceFetcher" then Except.error "ef down"
  else Except.ok [1, 2]

/-- Environment in which `technical_analyst` is not registered and every
other collaborator succeeds. -/
def c9_env : Env :=
  { registered := ["fundamentals_analyst", "news_analyst", "sentiment_analyst"],
    behavior := fun _ _ => Except.ok { success := true, output := "", report := "ok" } }

/-- A fresh pending step for the unregistered `technical_analyst`. -/
def c9_step0 : ExecutionStep :=
  { step_id := 0, agent_name := "technical_analyst", task := "t" }

/-- The run of the stock-analysis plan in `c9_env`, with counters reset. -/
def c9_run : RunState := execute_plan c9_env 3 (create_task_plan c2_ctx) ⟨0, 0⟩

/-- A one-step plan whose single step belongs to `news_analyst`. -/
def c10_plan : TaskPlan :=
  { task_id := "t", task_type := .stock_analysis, target := "X", phases := [],
    subagent_assignments := [("news_analyst", ["n1"])],
    priority_order := ["news_analyst"] }

/-- Environment whose only collaborator always raises an unclassified error
(so the state checker recommends retry). -/
def c10_env : Env :=
  { registered := ["news_analyst"], behavior := fun _ _ => Except.error "oops" }

/-- The run of the one-step plan: the step fails its first attempt and all
three retries. -/
def c10_run : RunState := execute_plan c10_env 3 c10_plan ⟨0, 0⟩

/-- A completed step used to instantiate hypotheses about non-empty runs. -/
def c1_step : ExecutionStep :=
  { step_id := 0, agent_name := "news_analyst", task := "t", status := "complete" }

/-- A failed step of `news_analyst` (used as a concrete witness input). -/
def c8_s1 : ExecutionStep :=
  { step_id := 0, agent_name := "news_analyst", task := "t",
    status := "failed", error_message := "alpha" }

/-- A failed step of `sentiment_analyst` (used as a concrete witness input). -/
def c8_s2 : ExecutionStep :=
  { step_id := 1, agent_name := "sentiment_analyst", task := "t",
    status := "failed", error_message := "beta" }

/-- A failed step of `fundamentals_analyst` (used as a concrete witness
input). -/
def c8_s3 : ExecutionStep :=
  { step_id := 2, agent_name := "fundamentals_analyst", task := "t",
    status := "failed", error_message := "gamma" }

/-- A failed step with an empty error message (used as a concrete witness
input). -/
def c10_wstep : ExecutionStep :=
  { step_id := 0, agent_name := "news_analyst", task := "t", status := "failed" }

/-- The invariants claimed for every built plan: non-empty `priority_order`
without duplicates, a non-empty assignment entry for every name in it, and
a flattened step list whose length is the sum of the assignment list
lengths. -/
def plan_props (plan : TaskPlan) : Prop :=
  plan.priority_order.isEmpty = false
  ∧ plan.priority_order.Nodup
  ∧ plan.priority_order.all
      (fun n => !(lookupTasks plan.subagent_assignments n).isEmpty) = true
  ∧ (prepare_execution plan).length
      = (plan.subagent_assignments.map (fun p => p.2.length)).sum

/-! ## Helper lemmas -/

/-- Every character of a matched initial segment occurs in the scanned
list. -/
theorem mem_of_startsWithL {n h : List Char} (hs : startsWithL n h = true) :
    ∀ a ∈ n, a ∈ h := by
  induction n generalizing h with
  | nil => intro a ha; cases ha
  | cons c cs ih =>
    cases h with
    | nil => simp [startsWithL] at hs
    | cons d ds =>
      simp only [startsWithL, Bool.and_eq_true, beq_iff_eq] at hs
      intro a ha
      rcases List.mem_cons.mp ha with rfl | ha
      · exact List.mem_cons.mpr (Or.inl hs.1)
      · exact List.mem_cons.mpr (Or.inr (ih hs.2 a ha))

/-- Every character of a matched substring occurs in the scanned list. -/
theorem mem_of_containsL {n h : List Char} (hc : containsL n h = true) :
    ∀ a ∈ n, a ∈ h := by
  induction h with
  | nil =>
    intro a ha
    simp only [containsL, List.isEmpty_iff] at hc
    subst hc; cases ha
  | cons d ds ih =>
    simp only [containsL, Bool.or_eq_true] at hc
    intro a ha
    rcases hc with hc | hc
    · exact mem_of_startsWithL hc a ha
    · exact List.mem_cons.mpr (Or.inr (ih hc a ha))

/-- A list without dots never contains a needle that has a dot. -/
theorem containsL_eq_false_of_no_dot {n cs : List Char}
    (hdot : '.' ∈ n) (hcs : ∀ c ∈ cs, c ≠ '.') :
    containsL n cs = false := by
  cases hb : containsL n cs with
  | false => rfl
  | true => exact absurd rfl (hcs '.' (mem_of_containsL hb '.' hdot))

/-- An ASCII letter is not an ASCII digit. -/
theorem isDigit_eq_false_of_isAlpha {c : Char} (h : c.isAlpha = true) :
    c.isDigit = false := by
  simp [Char.isAlpha, Char.isUpper, Char.isLower, Char.isDigit,
    UInt32.le_def, UInt32.lt_def, BitVec.le_def, BitVec.lt_def] at *
  omega

/-- Every character of an all-digit list differs from the dot. -/
theorem no_dot_of_listIsDigit {cs : List Char} (h : listIsDigit cs = true) :
    ∀ c ∈ cs, c ≠ '.' := by
  simp only [listIsDigit, Bool.and_eq_true, List.all_eq_true] at h
  intro c hc heq
  have := h.2 c hc
  subst heq
  simp at this

/-- Every character of an all-letter list differs from the dot. -/
theorem no_dot_of_listIsAlpha {cs : List Char} (h : listIsAlpha cs = true) :
    ∀ c ∈ cs, c ≠ '.' := by
  simp only [listIsAlpha, Bool.and_eq_true, List.all_eq_true] at h
  intro c hc heq
  have := h.2 c hc
  subst heq
  simp at this

/-- An all-letter list is not an all-digit list. -/
theorem listIsDigit_eq_false_of_listIsAlpha {cs : List Char}
    (h : listIsAlpha cs = true) : listIsDigit cs = false := by
  simp only [listIsAlpha, Bool.and_eq_true, List.all_eq_true] at h
  cases cs with
  | nil => simp at h
  | cons c rest =>
    have hc : c.isDigit = false :=
      isDigit_eq_false_of_isAlpha (h.2 c (List.mem_cons_self c rest))
    simp [listIsDigit, hc]

/-- After a failed (non-complete) step, `check_step` returns counters with
both failure counts incremented, in every branch. -/
theorem check_step_fail_state (maxRetries : Nat) (cs : CheckerState)
    (step : ExecutionStep) (h : (step.status == "complete") = false) :
    (check_step maxRetries cs step).1
      = ⟨cs.total_failures + 1, cs.consecutive_failures + 1⟩ := by
  simp only [check_step, h, Bool.false_eq_true, if_false]
  split
  · rfl
  · split <;> rfl


/-! ## Claim theorems -/

/-- C1 counterexample: on the empty step list (zero total steps) the final
validation reports failure and recommends replanning, not success as the
claim states. -/
theorem c1_counterexample :
    (validate_final_state []).is_ok = false
    ∧ (validate_final_state []).action = "replan" := by
  constructor <;>
    · simp [validate_final_state, successful_count]
      norm_num

/-- C1 (amended): for a non-empty step list, `validate_final_state` returns
`is_ok=true` iff the completed fraction is at least one half; for an empty
step list the success rate is taken to be 0, so it returns `is_ok=false`
with `requires_replanning` set (an empty plan is reported as a failure, not
a success). -/
theorem c1_amended :
    (∀ steps : List ExecutionStep, steps ≠ [] →
      ((validate_final_state steps).is_ok = true
        ↔ (successful_count steps : ℚ) / (steps.length : ℚ) ≥ 1 / 2))
    ∧ (validate_final_state []).is_ok = false
    ∧ (validate_final_state []).requires_replanning = true := by
  refine ⟨?_, ?_, ?_⟩
  · intro steps hne
    have hlen : steps.length > 0 := List.length_pos.mpr hne
    simp only [validate_final_state, hlen, if_true, ge_iff_le]
    split
    next hc =>
      rw [one_div] at hc
      simp [hc]
    next hc =>
      rw [one_div, not_le] at hc
      simp [hc, le_of_lt hc]
  · simp [validate_final_state, successful_count]
    norm_num
  · simp [validate_final_state, successful_count]
    norm_num

/-- C1 witness: the amended theorem instantiated at a one-step run whose
step completed. -/
theorem c1_witness :
    (validate_final_state [c1_step]).is_ok = true
      ↔ (successful_count [c1_step] : ℚ)
          / (([c1_step] : List ExecutionStep).length : ℚ) ≥ 1 / 2 :=
  c1_amended.1 [c1_step] (by simp)


/-- C2 counterexample: in the run where the `technical_analyst` step raises
`"connection timeout"` on every attempt, the Monitor is consulted exactly
once for that step — after the first failed attempt, at retryCount 0,
returning retry — although the step does fail on every attempt (it ends
failed with retryCount 3).  No consultation happens at retryCount 1, 2
or 3, so the Monitor never returns replan for it, contrary to the claim. -/
theorem c2_counterexample :
    ((c2_run.checks.filter (fun p => p.1.agent_name == "technical_analyst")).map
      (fun p => (p.1.retry_count, p.2.action)) = [(0, "retry")])
    ∧ ((c2_run.steps_done.filter (fun s => s.agent_name == "technical_analyst")).map
      (fun s => (s.retry_count, s.status)) = [(3, "failed")]) := by
  decide

/-- C2 (amended): in that run the Monitor is consulted once for the failing
step, at retryCount 0, and returns retry; the Engine then performs its
maxRetries=3 retries internally without consulting the Monitor, leaving the
step failed with retryCount 3.  Had `check_step` been called on the failed
`technical_analyst` step at retryCount 1 or 2 it would return retry, and at
retryCount 3 = maxRetries it returns replan (the agent is critical), not
skip. -/
theorem c2_amended :
    ((c2_run.checks.filter (fun p => p.1.agent_name == "technical_analyst")).map
      (fun p => (p.1.retry_count, p.2.action)) = [(0, "retry")])
    ∧ ((c2_run.steps_done.filter (fun s => s.agent_name == "technical_analyst")).map
      (fun s => (s.retry_count, s.status)) = [(3, "failed")])
    ∧ (check_step 3 ⟨0, 0⟩ (c2_failed 1)).2.action = "retry"
    ∧ (check_step 3 ⟨0, 0⟩ (c2_failed 2)).2.action = "retry"
    ∧ (check_step 3 ⟨0, 0⟩ (c2_failed 3)).2.action = "replan"
    ∧ (check_step 3 ⟨0, 0⟩ (c2_failed 3)).2.requires_replanning = true
    ∧ ((check_step 3 ⟨0, 0⟩ (c2_failed 3)).2.action == "skip") = false := by
  decide

/-- C3 counterexample: `run` parses the task-type string before its `try`
block, so the invalid task type `"bogus"` raises a `ValueError` to the
caller instead of returning a result object. -/
theorem c3_counterexample :
    orchestrator_run c3_env 3 none "bogus" "AAPL" "2025-01-18"
      = Except.error "'bogus' is not a valid TaskType" := rfl

/-- C3 (amended): for every input whose taskType string is a valid enum
value, `run` returns a result object; any exception raised inside its `try`
block is caught and converted into a result with `success=false` and the
exception message in the `error` field.  Only an invalid taskType string
(parsed before the `try`) escapes as an exception. -/
theorem c3_amended :
    (∀ (env : Env) (maxRetries : Nat) (innerFault : Option String)
        (s target trade_date : String),
      (TaskType.ofString? s).isSome = true →
      (orchestrator_run env maxRetries innerFault s target trade_date).isOk
        = true)
    ∧ (∀ (env : Env) (maxRetries : Nat) (e s target trade_date : String)
        (tt : TaskType),
      TaskType.ofString? s = some tt →
      orchestrator_run env maxRetries (some e) s target trade_date
        = Except.ok { success := false, task_type := tt.value, target := target,
                      trade_date := trade_date, error := some e }) := by
  constructor
  · intro env maxRetries innerFault s target trade_date h
    cases htt : TaskType.ofString? s with
    | none => rw [htt] at h; simp at h
    | some tt =>
        cases innerFault with
        | none => simp only [orchestrator_run, htt]; rfl
        | some e => simp only [orchestrator_run, htt]; rfl
  · intro env maxRetries e s target trade_date tt h
    simp only [orchestrator_run, h]

/-- C3 witness: the amended theorem instantiated at a valid task type with
an inner fault `"boom"`. -/
theorem c3_witness :
    orchestrator_run c3_env 3 (some "boom") "stock_analysis" "AAPL" "2025-01-18"
      = Except.ok { success := false, task_type := "stock_analysis",
                    target := "AAPL", trade_date := "2025-01-18",
                    error := some "boom" } :=
  c3_amended.2 c3_env 3 "boom" "stock_analysis" "AAPL" "2025-01-18"
    TaskType.stock_analysis rfl

/-- C4 counterexample: when the collaborator returns `success=false` with
errors `["boom", "bang"]`, the Engine marks the step failed and joins the
error list, but does not record `completed_at` (it stays `none`), contrary
to the claim. -/
theorem c4_counterexample :
    (execute_step c4_env 0 c4_step).1.status = "failed"
    ∧ (execute_step c4_env 0 c4_step).1.error_message = "boom, bang"
    ∧ (execute_step c4_env 0 c4_step).1.completed_at = none := by
  decide

/-- C4 (amended): for every failing step execution, the Engine marks the
step failed and sets errorMessage from the joined error list of a returned
failure or from the caught exception message; `completed_at` is recorded on
the exception path but left unchanged when the collaborator returns
`success=false`. -/
theorem c4_amended :
    (∀ (env : Env) (clock : Nat) (step : ExecutionStep) (e : String),
      env.registered.contains step.agent_name = true →
      env.behavior step.step_id step.retry_count = Except.error e →
      ((execute_step env clock step).1.status = "failed"
        ∧ (execute_step env clock step).1.error_message = e
        ∧ (execute_step env clock step).1.completed_at = some (clock + 1)))
    ∧ (∀ (env : Env) (clock : Nat) (step : ExecutionStep) (r : AgentResult),
      env.registered.contains step.agent_name = true →
      env.behavior step.step_id step.retry_count = Except.ok r →
      r.success = false →
      ((execute_step env clock step).1.status = "failed"
        ∧ (execute_step env clock step).1.error_message
            = String.intercalate ", " r.errors
        ∧ (execute_step env clock step).1.completed_at = step.completed_at)) := by
  constructor
  · intro env clock step e hreg hbeh
    have hmem : step.agent_name ∈ env.registered := by simpa using hreg
    simp [execute_step, hmem, hbeh]
  · intro env clock step r hreg hbeh hfail
    have hmem : step.agent_name ∈ env.registered := by simpa using hreg
    simp [execute_step, hmem, hbeh, hfail]

/-- C4 witness: the amended theorem instantiated at the concrete returned
failure with errors `["boom", "bang"]`. -/
theorem c4_witness :
    (execute_step c4_env 0 c4_step).1.status = "failed"
    ∧ (execute_step c4_env 0 c4_step).1.error_message
        = String.intercalate ", " ["boom", "bang"]
    ∧ (execute_step c4_env 0 c4_step).1.completed_at = c4_step.completed_at :=
  c4_amended.2 c4_env 0 c4_step
    { success := false, output := "", errors := ["boom", "bang"] } rfl rfl rfl


/-- C5 counterexample: `"BRK.B"` matches none of the claimed rules (it is
not alphabetic and not a pure-digit code), so the claim maps it to Unknown,
yet `detect_market_type` maps it to USStock via its alphanumeric fallback
branch. -/
theorem c5_counterexample :
    detect_market_type "BRK.B" = MarketType.us_stock
    ∧ detect_market_claim_rules "BRK.B" = MarketType.unknown := by
  decide

/-- C5 (amended): the suffix and sample rules hold as claimed; the digit
rules apply to the code with dots removed; and the USStock rule also covers
codes that are alphanumeric after removing dots and dashes and not purely
numeric (such as `"BRK.B"`), not only purely alphabetic codes. -/
theorem c5_amended :
    detect_market_type "600519" = MarketType.a_share
    ∧ detect_market_type "00700" = MarketType.hk_stock
    ∧ detect_market_type "AAPL" = MarketType.us_stock
    ∧ detect_market_type "600519.SS" = MarketType.a_share
    ∧ detect_market_type "BRK.B" = MarketType.us_stock
    ∧ detect_market_type "12.3456" = MarketType.a_share
    ∧ (∀ s : String, listIsDigit (normalize_code s) = true →
        (normalize_code s).length = 6 → detect_market_type s = MarketType.a_share)
    ∧ (∀ s : String, listIsDigit (normalize_code s) = true →
        (normalize_code s).length = 5 → detect_market_type s = MarketType.hk_stock)
    ∧ (∀ s : String, listIsAlpha (normalize_code s) = true →
        detect_market_type s = MarketType.us_stock) := by
  refine ⟨by decide, by decide, by decide, by decide, by decide, by decide,
    ?_, ?_, ?_⟩
  · intro s hdig hlen
    have hnd := no_dot_of_listIsDigit hdig
    have h1 : containsL ".SS".data (normalize_code s) = false :=
      containsL_eq_false_of_no_dot (by decide) hnd
    have h2 : containsL ".SZ".data (normalize_code s) = false :=
      containsL_eq_false_of_no_dot (by decide) hnd
    have h3 : containsL ".HK".data (normalize_code s) = false :=
      containsL_eq_false_of_no_dot (by decide) hnd
    have hfil : (normalize_code s).filter (fun c => c ≠ '.') = normalize_code s :=
      List.filter_eq_self.mpr (fun c hc => by simp [hnd c hc])
    simp only [ne_eq, decide_not] at hfil
    simp only [detect_market_type, normalize_code] at *
    simp [h1, h2, h3, hfil, hdig, hlen]
  · intro s hdig hlen
    have hnd := no_dot_of_listIsDigit hdig
    have h1 : containsL ".SS".data (normalize_code s) = false :=
      containsL_eq_false_of_no_dot (by decide) hnd
    have h2 : containsL ".SZ".data (normalize_code s) = false :=
      containsL_eq_false_of_no_dot (by decide) hnd
    have h3 : containsL ".HK".data (normalize_code s) = false :=
      containsL_eq_false_of_no_dot (by decide) hnd
    have hfil : (normalize_code s).filter (fun c => c ≠ '.') = normalize_code s :=
      List.filter_eq_self.mpr (fun c hc => by simp [hnd c hc])
    simp only [ne_eq, decide_not] at hfil
    simp only [detect_market_type, normalize_code] at *
    simp [h1, h2, h3, hfil, hdig, hlen]
  · intro s halpha
    have hnd := no_dot_of_listIsAlpha halpha
    have h1 : containsL ".SS".data (normalize_code s) = false :=
      containsL_eq_false_of_no_dot (by decide) hnd
    have h2 : containsL ".SZ".data (normalize_code s) = false :=
      containsL_eq_false_of_no_dot (by decide) hnd
    have h3 : containsL ".HK".data (normalize_code s) = false :=
      containsL_eq_false_of_no_dot (by decide) hnd
    have hfil : (normalize_code s).filter (fun c => c ≠ '.') = normalize_code s :=
      List.filter_eq_self.mpr (fun c hc => by simp [hnd c hc])
    have hnotdig : listIsDigit (normalize_code s) = false :=
      listIsDigit_eq_false_of_listIsAlpha halpha
    simp only [ne_eq, decide_not] at hfil
    simp only [detect_market_type, normalize_code] at *
    simp [h1, h2, h3, hfil, hnotdig, halpha]

/-- C5 witness: the amended alphabetic rule instantiated at `"MSFT"`. -/
theorem c5_witness : detect_market_type "MSFT" = MarketType.us_stock :=
  c5_amended.2.2.2.2.2.2.2.2 "MSFT" (by decide)


/-- C6 (confirmed): for the A-share code `"600519"` the default
registration yields the candidate order Akshare, Efinance, Yfinance
(ascending priority); a non-empty Akshare result is returned with its name;
if Akshare and Efinance both raise, the first non-empty Yfinance result is
returned with sourceName `"YfinanceFetcher"`; and if all three raise, a
single aggregated error lists every attempted fetcher's error. -/
theorem c6 :
    ((suitable_fetchers default_fetchers "600519").map (fun f => f.name)
      = ["AkshareFetcher", "EfinanceFetcher", "YfinanceFetcher"])
    ∧ (∀ (fenv : String → Except String (List Nat)) (t : List Nat),
        fenv "AkshareFetcher" = Except.ok t → t ≠ [] →
        manager_get_daily_data default_fetchers fenv "600519"
          = Except.ok (t, "AkshareFetcher"))
    ∧ (∀ (fenv : String → Except String (List Nat)) (e1 e2 : String)
        (t : List Nat),
        fenv "AkshareFetcher" = Except.error e1 →
        fenv "EfinanceFetcher" = Except.error e2 →
        fenv "YfinanceFetcher" = Except.ok t → t ≠ [] →
        manager_get_daily_data default_fetchers fenv "600519"
          = Except.ok (t, "YfinanceFetcher"))
    ∧ (∀ (fenv : String → Except String (List Nat)) (e1 e2 e3 : String),
        fenv "AkshareFetcher" = Except.error e1 →
        fenv "EfinanceFetcher" = Except.error e2 →
        fenv "YfinanceFetcher" = Except.error e3 →
        manager_get_daily_data default_fetchers fenv "600519"
          = Except.error ("所有数据源获取 600519 失败:\n"
              ++ String.intercalate "\n"
                ["[AkshareFetcher] 失败: " ++ e1,
                 "[EfinanceFetcher] 失败: " ++ e2,
                 "[YfinanceFetcher] 失败: " ++ e3])) := by
  have hsuit : suitable_fetchers default_fetchers "600519"
      = [AkshareFetcher, EfinanceFetcher, YfinanceFetcher] := by decide
  refine ⟨by decide, ?_, ?_, ?_⟩
  · intro fenv t h1 ht
    unfold manager_get_daily_data
    rw [hsuit]
    simp only [failover_loop, AkshareFetcher, h1]
    cases t with
    | nil => exact absurd rfl ht
    | cons a as => rfl
  · intro fenv e1 e2 t h1 h2 h3 ht
    unfold manager_get_daily_data
    rw [hsuit]
    simp only [failover_loop, AkshareFetcher, EfinanceFetcher, YfinanceFetcher,
      h1, h2, h3]
    cases t with
    | nil => exact absurd rfl ht
    | cons a as => rfl
  · intro fenv e1 e2 e3 h1 h2 h3
    unfold manager_get_daily_data
    rw [hsuit]
    simp only [failover_loop, AkshareFetcher, EfinanceFetcher, YfinanceFetcher,
      h1, h2, h3]
    rfl

/-- C6 witness: the failover branch instantiated at a fetch environment
where Akshare and Efinance raise and Yfinance returns `[1, 2]`. -/
theorem c6_witness :
    manager_get_daily_data default_fetchers c6_env "600519"
      = Except.ok ([1, 2], "YfinanceFetcher") :=
  c6.2.2.1 c6_env "ak down" "ef down" [1, 2] rfl rfl rfl (by decide)


/-- C7 (confirmed): for every target and trade date, each of the three task
types yields a plan with a non-empty, duplicate-free `priority_order` in the
claimed fixed order (stock analysis: technical, fundamentals, news,
sentiment), a non-empty assignment entry for every name in it, and a
flattened step list whose length is the sum of the assignment list
lengths. -/
theorem c7 :
    ∀ (target trade_date : String) (lbd : Nat),
      (plan_props (create_task_plan ⟨.stock_analysis, target, trade_date, lbd, []⟩)
        ∧ (create_task_plan ⟨.stock_analysis, target, trade_date, lbd, []⟩).priority_order
            = ["technical_analyst", "fundamentals_analyst", "news_analyst",
               "sentiment_analyst"])
      ∧ (plan_props (create_task_plan ⟨.holdings_tracking, target, trade_date, lbd, []⟩)
        ∧ (create_task_plan ⟨.holdings_tracking, target, trade_date, lbd, []⟩).priority_order
            = ["holdings_hunter", "news_analyst"])
      ∧ (plan_props (create_task_plan ⟨.stock_screening, target, trade_date, lbd, []⟩)
        ∧ (create_task_plan ⟨.stock_screening, target, trade_date, lbd, []⟩).priority_order
            = ["alpha_hound", "technical_analyst", "fundamentals_analyst"]) := by
  intro target trade_date lbd
  refine ⟨⟨⟨rfl, ?_, rfl, rfl⟩, rfl⟩, ⟨⟨rfl, ?_, rfl, rfl⟩, rfl⟩,
    ⟨⟨rfl, ?_, rfl, rfl⟩, rfl⟩⟩
  · show List.Nodup ["technical_analyst", "fundamentals_analyst",
      "news_analyst", "sentiment_analyst"]
    decide
  · show List.Nodup ["holdings_hunter", "news_analyst"]
    decide
  · show List.Nodup ["alpha_hound", "technical_analyst", "fundamentals_analyst"]
    decide

/-- C7 witness: the plan invariants instantiated at a concrete target and
trade date. -/
theorem c7_witness :
    (plan_props (create_task_plan ⟨.stock_analysis, "AAPL", "2025-01-18", 7, []⟩)
      ∧ (create_task_plan ⟨.stock_analysis, "AAPL", "2025-01-18", 7, []⟩).priority_order
          = ["technical_analyst", "fundamentals_analyst", "news_analyst",
             "sentiment_analyst"])
    ∧ (plan_props (create_task_plan ⟨.holdings_tracking, "AAPL", "2025-01-18", 7, []⟩)
      ∧ (create_task_plan ⟨.holdings_tracking, "AAPL", "2025-01-18", 7, []⟩).priority_order
          = ["holdings_hunter", "news_analyst"])
    ∧ (plan_props (create_task_plan ⟨.stock_screening, "AAPL", "2025-01-18", 7, []⟩)
      ∧ (create_task_plan ⟨.stock_screening, "AAPL", "2025-01-18", 7, []⟩).priority_order
          = ["alpha_hound", "technical_analyst", "fundamentals_analyst"]) :=
  c7 "AAPL" "2025-01-18" 7

/-- C8 (confirmed): starting from any counter state (in particular right
after `reset_counters`), three consecutive checks of failed steps, each
below its retry cap and with no intervening complete step, make the third
check return replan with `requires_replanning`, regardless of the error
message; and checking any complete step resets `consecutive_failures`
to 0. -/
theorem c8 :
    (∀ (maxRetries : Nat) (cs : CheckerState) (s1 s2 s3 : ExecutionStep),
      s1.status = "failed" → s2.status = "failed" → s3.status = "failed" →
      s1.retry_count < maxRetries → s2.retry_count < maxRetries →
      s3.retry_count < maxRetries →
      ((check_step maxRetries
          ((check_step maxRetries ((check_step maxRetries cs s1).1) s2).1)
          s3).2.action = "replan"
        ∧ (check_step maxRetries
            ((check_step maxRetries ((check_step maxRetries cs s1).1) s2).1)
            s3).2.requires_replanning = true))
    ∧ (∀ (maxRetries : Nat) (cs : CheckerState) (s : ExecutionStep),
      s.status = "complete" →
      (check_step maxRetries cs s).1.consecutive_failures = 0) := by
  constructor
  · intro maxRetries cs s1 s2 s3 h1 h2 h3 hr1 hr2 hr3
    have e1 : (s1.status == "complete") = false := by simp [h1]
    have e2 : (s2.status == "complete") = false := by simp [h2]
    have e3 : (s3.status == "complete") = false := by simp [h3]
    rw [check_step_fail_state maxRetries cs s1 e1,
      check_step_fail_state maxRetries _ s2 e2]
    simp only [check_step, e3, Bool.false_eq_true, if_false]
    rw [if_neg (by omega), if_pos (by simp only [max_consecutive_failures]; omega)]
    exact ⟨rfl, rfl⟩
  · intro maxRetries cs s h
    simp [check_step, h]

/-- C8 witness: the circuit breaker instantiated at three concrete failed
steps of different agents checked after a counter reset. -/
theorem c8_witness :
    (check_step 3 ((check_step 3 ((check_step 3 ⟨0, 0⟩ c8_s1).1) c8_s2).1)
        c8_s3).2.action = "replan"
    ∧ (check_step 3 ((check_step 3 ((check_step 3 ⟨0, 0⟩ c8_s1).1) c8_s2).1)
        c8_s3).2.requires_replanning = true :=
  c8.1 3 ⟨0, 0⟩ c8_s1 c8_s2 c8_s3 rfl rfl rfl (by decide) (by decide) (by decide)

/-- C9 counterexample: for the unregistered `technical_analyst` the step's
error message is `"SubAgent technical_analyst not found"`, not the claimed
`"agent not found"`. -/
theorem c9_counterexample :
    (execute_step c9_env 0 c9_step0).1.error_message
      = "SubAgent technical_analyst not found"
    ∧ ((execute_step c9_env 0 c9_step0).1.error_message == "agent not found")
      = false := by
  decide

/-- C9 (amended): a step whose agent is not registered fails immediately
with errorMessage `"SubAgent <name> not found"`; in the run this message
contains `"not found"`, so the Monitor classifies it data-unavailable and
returns skip, and the step is never retried: it ends skipped with
retryCount 0. -/
theorem c9_amended :
    (∀ (env : Env) (clock : Nat) (step : ExecutionStep),
      env.registered.contains step.agent_name = false →
      ((execute_step env clock step).1.status = "failed"
        ∧ (execute_step env clock step).1.error_message
            = "SubAgent " ++ step.agent_name ++ " not found"
        ∧ (execute_step env clock step).2.1 = false))
    ∧ ((c9_run.steps_done.filter (fun s => s.agent_name == "technical_analyst")).map
        (fun s => (s.status, s.retry_count)) = [("skipped", 0)])
    ∧ ((c9_run.checks.filter (fun p => p.1.agent_name == "technical_analyst")).map
        (fun p => p.2.action) = ["skip"]) := by
  refine ⟨?_, by decide, by decide⟩
  intro env clock step hreg
  have hmem : step.agent_name ∉ env.registered := by simpa using hreg
  simp [execute_step, hmem]

/-- C9 witness: the unregistered-agent branch instantiated at the concrete
environment without `technical_analyst`. -/
theorem c9_witness :
    (execute_step c9_env 0 c9_step0).1.status = "failed"
    ∧ (execute_step c9_env 0 c9_step0).1.error_message
        = "SubAgent " ++ c9_step0.agent_name ++ " not found"
    ∧ (execute_step c9_env 0 c9_step0).2.1 = false :=
  c9_amended.1 c9_env 0 c9_step0 rfl

/-- C10 (confirmed): `check_step` increments `total_failures` and
`consecutive_failures` by exactly one per call on a non-complete step, and
in the run whose single step fails its first attempt and all three internal
retries the counters end at 1 (not one per attempt) while the step ends
failed with retryCount 3 after a single Monitor consultation. -/
theorem c10 :
    (∀ (maxRetries : Nat) (cs : CheckerState) (step : ExecutionStep),
      (step.status == "complete") = false →
      ((check_step maxRetries cs step).1.total_failures = cs.total_failures + 1
        ∧ (check_step maxRetries cs step).1.consecutive_failures
            = cs.consecutive_failures + 1))
    ∧ c10_run.checker.total_failures = 1
    ∧ c10_run.checker.consecutive_failures = 1
    ∧ c10_run.steps_done.map (fun s => (s.retry_count, s.status)) = [(3, "failed")]
    ∧ c10_run.checks.length = 1 := by
  refine ⟨?_, by decide, by decide, by decide, by decide⟩
  intro maxRetries cs step h
  rw [check_step_fail_state maxRetries cs step h]
  exact ⟨rfl, rfl⟩

/-- C10 witness: the per-call increment instantiated at a concrete failed
step and reset counters. -/
theorem c10_witness :
    (check_step 3 ⟨0, 0⟩ c10_wstep).1.total_failures
        = (⟨0, 0⟩ : CheckerState).total_failures + 1
    ∧ (check_step 3 ⟨0, 0⟩ c10_wstep).1.consecutive_failures
        = (⟨0, 0⟩ : CheckerState).consecutive_failures + 1 :=
  c10.1 3 ⟨0, 0⟩ c10_wstep (by decide)

end Clarity
